import Mathlib

/-!
Verification of the register-programming core of the mt9v113 camera-sensor
driver and the ov5693 lens-actuator driver.

The C sources are shallowly embedded: external effects (the i2c transport,
register reads, gpio/clock collaborators, results of called sub-sequences)
are supplied as explicit oracle parameters, and each embedded operation
returns its result code together with the trace of bus operations it issued.
Machine integers are modelled as `Nat`/`Int` with explicit wrapping where the
C types force it.
-/

namespace Totemc2

/-- Linux errno values used by the drivers (returned negated). -/
def eioErr : Int := 5

def EINVAL : Int := 22

/-- `enum mt9v113_width` from the sensor driver. -/
inductive Width
  | WORD_LEN
  | BYTE_LEN
deriving DecidableEq, Repr

/-- One logical bus operation, as observed by a mock bus. -/
inductive BusOp
  | write (addr val : Nat) (width : Width)
  | read (addr : Nat)
deriving DecidableEq, Repr

/-! ## Bus Transaction Engine: `i2c_transfer_retry` -/

/-- `#define MAX_I2C_RETRIES 20` -/
def MAX_I2C_RETRIES : Nat := 20

/-- Loop body of `i2c_transfer_retry`: `transfer k` tells whether the k-th
call of `i2c_transfer` sent the full message count.  Returns
(result code, attempts made, number of 10ms inter-attempt sleeps).
In the source a failed attempt is followed by `msleep(10)` before the
loop condition is re-examined. -/
def transferRetryGo (transfer : Nat → Bool) : Nat → Nat → Int × Nat × Nat
  | 0, k => (-eioErr, k, 0)
  | Nat.succ fuel, k =>
    if transfer k then (0, k + 1, 0)
    else
      let t := transferRetryGo transfer fuel (k + 1)
      (t.1, t.2.1, t.2.2 + 1)

/-- `i2c_transfer_retry` (src/unnamed/part_000, lines 143-161): retries the
transport call up to `MAX_I2C_RETRIES` times, breaking on the first attempt
that sends all messages; returns 0 on success and `-eioErr` once all attempts
have failed. -/
def i2c_transfer_retry (transfer : Nat → Bool) : Int × Nat × Nat :=
  transferRetryGo transfer MAX_I2C_RETRIES 0

lemma transferRetryGo_all_fail (transfer : Nat → Bool) :
    ∀ fuel k, (∀ i, k ≤ i → i < k + fuel → transfer i = false) →
      transferRetryGo transfer fuel k = (-eioErr, k + fuel, fuel) := by
  intro fuel
  induction fuel with
  | zero => intro k _; simp [transferRetryGo]
  | succ f ih =>
    intro k h
    have h0 : transfer k = false := h k (Nat.le_refl k) (by omega)
    have ht := ih (k + 1) (by intro i h1 h2; exact h i (by omega) (by omega))
    simp [transferRetryGo, h0, ht]
    omega

lemma transferRetryGo_first_success (transfer : Nat → Bool) :
    ∀ j fuel k, j < fuel → (∀ i, k ≤ i → i < k + j → transfer i = false) →
      transfer (k + j) = true →
      transferRetryGo transfer fuel k = (0, k + j + 1, j) := by
  intro j
  induction j with
  | zero =>
    intro fuel k hj _ hs
    match fuel, hj with
    | Nat.succ f, _ =>
      simp at hs
      simp [transferRetryGo, hs]
  | succ j ih =>
    intro fuel k hj hf hs
    match fuel, hj with
    | Nat.succ f, hj =>
      have h0 : transfer k = false := hf k (Nat.le_refl k) (by omega)
      have ht := ih f (k + 1) (by omega)
        (by intro i h1 h2; exact hf i (by omega) (by omega))
        (by have : k + 1 + j = k + (j + 1) := by omega
            rw [this]; exact hs)
      simp [transferRetryGo, h0, ht]
      omega

/-! ## Poll-Until-Condition Primitive: `mt9v113_i2c_check_bit` -/

/-- `#define CHECK_STATE_TIME 100` -/
def CHECK_STATE_TIME : Nat := 100

/-- The loop test of `mt9v113_i2c_check_bit`: with `check_state` nonzero the
loop breaks when `check_value & check_bit` is nonzero, otherwise when it is
zero. -/
def bitMatch (v cb : Nat) (check_state : Bool) : Bool :=
  if check_state then decide (v &&& cb ≠ 0) else decide (v &&& cb = 0)

/-- Loop of `mt9v113_i2c_check_bit`: `readVal k` is the register value the
k-th `mt9v113_i2c_read_w` reports (its return code is ignored by the source).
Returns (result, number of read iterations performed). -/
def checkBitGo (readVal : Nat → Nat) (cb : Nat) (cs : Bool) : Nat → Nat → Int × Nat
  | 0, k => (-1, k)
  | Nat.succ fuel, k =>
    if bitMatch (readVal k) cb cs then (1, k + 1)
    else checkBitGo readVal cb cs fuel (k + 1)

/-- `mt9v113_i2c_check_bit` (src/unnamed/part_000, lines 354-379): polls the
register up to `CHECK_STATE_TIME` times for bit `bit` to reach the requested
set/clear state; returns 1 on the first match and -1 on timeout.
The mask is `0x0001 << bit` stored into an `unsigned short`. -/
def mt9v113_i2c_check_bit (readVal : Nat → Nat) (bit : Nat) (check_state : Bool) :
    Int × Nat :=
  checkBitGo readVal ((1 <<< bit) % 65536) check_state CHECK_STATE_TIME 0

lemma checkBitGo_no_match (readVal : Nat → Nat) (cb : Nat) (cs : Bool) :
    ∀ fuel k, (∀ i, k ≤ i → i < k + fuel → bitMatch (readVal i) cb cs = false) →
      checkBitGo readVal cb cs fuel k = (-1, k + fuel) := by
  intro fuel
  induction fuel with
  | zero => intro k _; simp [checkBitGo]
  | succ f ih =>
    intro k h
    have h0 : bitMatch (readVal k) cb cs = false := h k (Nat.le_refl k) (by omega)
    have ht := ih (k + 1) (by intro i h1 h2; exact h i (by omega) (by omega))
    simp [checkBitGo, h0, ht]
    omega

lemma checkBitGo_first_match (readVal : Nat → Nat) (cb : Nat) (cs : Bool) :
    ∀ j fuel k, j < fuel →
      (∀ i, k ≤ i → i < k + j → bitMatch (readVal i) cb cs = false) →
      bitMatch (readVal (k + j)) cb cs = true →
      checkBitGo readVal cb cs fuel k = (1, k + j + 1) := by
  intro j
  induction j with
  | zero =>
    intro fuel k hj _ hs
    match fuel, hj with
    | Nat.succ f, _ =>
      simp at hs
      simp [checkBitGo, hs]
  | succ j ih =>
    intro fuel k hj hf hs
    match fuel, hj with
    | Nat.succ f, hj =>
      have h0 : bitMatch (readVal k) cb cs = false := hf k (Nat.le_refl k) (by omega)
      have ht := ih f (k + 1) (by omega)
        (by intro i h1 h2; exact hf i (by omega) (by omega))
        (by have : k + 1 + j = k + (j + 1) := by omega
            rw [this]; exact hs)
      simp [checkBitGo, h0, ht]
      omega

lemma checkBitGo_reads_le (readVal : Nat → Nat) (cb : Nat) (cs : Bool) :
    ∀ fuel k, (checkBitGo readVal cb cs fuel k).2 ≤ k + fuel := by
  intro fuel
  induction fuel with
  | zero => intro k; simp [checkBitGo]
  | succ f ih =>
    intro k
    by_cases h : bitMatch (readVal k) cb cs
    · simp [checkBitGo, h]
    · have := ih (k + 1)
      simp [checkBitGo, h]
      omega

/-! ## Bus framing: `mt9v113_i2c_write` and the two-phase read -/

/-- The byte frame `buf` composed by `mt9v113_i2c_write`
(src/unnamed/part_000, lines 183-222).  For `WORD_LEN` the source masks and
shifts the 16-bit address and value into four bytes; for `BYTE_LEN` it
assigns `waddr` and `wdata` directly to `unsigned char` buffer cells, which
truncates them to 8 bits. -/
def mt9v113_i2c_write_frame (waddr wdata : Nat) (width : Width) : List Nat :=
  match width with
  | Width.WORD_LEN =>
      [(waddr &&& 0xFF00) >>> 8, waddr &&& 0x00FF,
       (wdata &&& 0xFF00) >>> 8, wdata &&& 0x00FF]
  | Width.BYTE_LEN => [waddr % 256, wdata % 256]

/-- One i2c message: a transmit of concrete bytes or a receive of a byte
count (`I2C_M_RD`). -/
inductive I2cMsg
  | tx (bytes : List Nat)
  | rx (len : Nat)
deriving DecidableEq, Repr

/-- `mt9v113_i2c_write` hands its frame to `mt9v113_i2c_txdata`, which issues
a single i2c message. -/
def mt9v113_i2c_write_msgs (waddr wdata : Nat) (width : Width) : List I2cMsg :=
  [I2cMsg.tx (mt9v113_i2c_write_frame waddr wdata width)]

/-- `mt9v113_i2c_rxdata` (src/unnamed/part_000, lines 247-271): a two-entry
message array, a 2-byte address-select write followed by a read of `length`
bytes, handed to a single `i2c_transfer_retry` call. -/
def mt9v113_i2c_rxdata_msgs (addrBytes : List Nat) (length : Nat) : List I2cMsg :=
  [I2cMsg.tx addrBytes, I2cMsg.rx length]

/-- `mt9v113_i2c_read_w` fills the buffer with the big-endian register
address and calls `mt9v113_i2c_rxdata` with length 2. -/
def mt9v113_i2c_read_w_msgs (raddr : Nat) : List I2cMsg :=
  mt9v113_i2c_rxdata_msgs [(raddr &&& 0xFF00) >>> 8, raddr &&& 0x00FF] 2

/-- Big-endian byte pair of a 16-bit quantity: high byte first.
This is the spec-side definition the framing is compared against. -/
def be16 (x : Nat) : List Nat := [x / 256 % 256, x % 256]

/-! ## Configuration Table Interpreter: `mt9v113_i2c_write_table` -/

/-- `struct mt9v113_i2c_reg_conf` as consumed by the table writer. -/
structure mt9v113_i2c_reg_conf where
  waddr : Nat
  wdata : Nat
  width : Width
  mdelay_time : Nat
deriving DecidableEq, Repr

/-- Observable events of the table writer: a register write handed to
`mt9v113_i2c_write` (recorded whether or not the transport succeeds) or an
`mdelay` sleep. -/
inductive Event
  | write (addr val : Nat) (width : Width)
  | sleep (ms : Nat)
deriving DecidableEq, Repr

/-- Loop of `mt9v113_i2c_write_table`: `writeOk i` tells whether the i-th
issued write succeeds.  Threads the running `rc` exactly as the source does
(`rc` starts at `-eioErr`, is overwritten by each write, and the loop breaks
before the per-entry delay when a write fails). -/
def writeTableGo (writeOk : Nat → Bool) : Nat → Int → List mt9v113_i2c_reg_conf → Int × List Event
  | _, rc, [] => (rc, [])
  | i, _, e :: rest =>
    let ev := Event.write e.waddr e.wdata e.width
    if writeOk i then
      let tail := writeTableGo writeOk (i + 1) 0 rest
      if e.mdelay_time ≠ 0 then (tail.1, ev :: Event.sleep e.mdelay_time :: tail.2)
      else (tail.1, ev :: tail.2)
    else (-eioErr, [ev])

/-- `mt9v113_i2c_write_table` (src/unnamed/part_000, lines 224-245). -/
def mt9v113_i2c_write_table (writeOk : Nat → Bool) (tbl : List mt9v113_i2c_reg_conf) :
    Int × List Event :=
  writeTableGo writeOk 0 (-eioErr) tbl

/-- Spec-side trace of a fully applied table: each entry written in order,
with its post-write sleep when the entry's delay is non-zero. -/
def appliedTrace : List mt9v113_i2c_reg_conf → List Event
  | [] => []
  | e :: rest =>
    Event.write e.waddr e.wdata e.width ::
      (if e.mdelay_time ≠ 0 then Event.sleep e.mdelay_time :: appliedTrace rest
       else appliedTrace rest)

/-! ## Identification: `mt9v113_probe_init_sensor` -/

/-- `#define MT9V113_MODEL_ID 0x2280` -/
def MT9V113_MODEL_ID : Nat := 0x2280

/-- `#define MT9V113_MODEL_ID_ADDR 0x0000` -/
def MT9V113_MODEL_ID_ADDR : Nat := 0x0000

/-- `mt9v113_probe_init_sensor` (src/unnamed/part_000, lines 1924-2003).
`gpioReqRc`, `clkRc`, `gpioDirRc` are the result codes of the external
gpio/clock collaborators (the source bails out with each of them on their
failure paths); `readResult` is the model-id register read, `none` denoting
an i2c failure (`mt9v113_i2c_read_w` then returns `-eioErr`).  The second
component is the trace of i2c bus operations issued. -/
def mt9v113_probe_init_sensor (gpioReqRc clkRc gpioDirRc : Int)
    (readResult : Option Nat) : Int × List BusOp :=
  if gpioReqRc ≠ 0 then (gpioReqRc, [])
  else if clkRc < 0 then (clkRc, [])
  else if gpioDirRc < 0 then (gpioDirRc, [])
  else
    match readResult with
    | none => (-eioErr, [BusOp.read MT9V113_MODEL_ID_ADDR])
    | some model_id =>
      if model_id ≠ MT9V113_MODEL_ID then (-EINVAL, [BusOp.read MT9V113_MODEL_ID_ADDR])
      else (0, [BusOp.read MT9V113_MODEL_ID_ADDR])

/-! ## Power-up entry point: `mt9v113_sensor_open_init` -/

/-- `#define SUSPEND_FAIL_RETRY_MAX_2 3` -/
def SUSPEND_FAIL_RETRY_MAX_2 : Nat := 3

/-- Retry loop of `mt9v113_sensor_open_init` (src/unnamed/part_000, lines
2007-2104).  Attempt-indexed oracles give each sub-operation's result code:
`probeRc n` for `mt9v113_probe_init_sensor` on the n-th attempt, `regInitRc
n` for `mt9v113_reg_init`, and `srd`/`swr`/`res` for the streaming-off
register read, its write-back, and `resume()`.  `count` models
`suspend_fail_retry_count_2`, decremented before each jump back to
`probe_suspend_fail_retry_2`; only a `mt9v113_reg_init` failure takes that
jump.  Returns (rc, number of probe attempts performed). -/
def openInitGo (pdd csi : Bool) (probeRc regInitRc : Nat → Int)
    (srd swr res : Int) : Nat → Nat → Int × Nat
  | count, n =>
    if probeRc n < 0 then (probeRc n, n + 1)
    else if pdd then
      if csi = false ∧ res < 0 then (res, n + 1) else (0, n + 1)
    else if regInitRc n < 0 then
      match count with
      | Nat.succ c => openInitGo pdd csi probeRc regInitRc srd swr res c (n + 1)
      | 0 => (regInitRc n, n + 1)
    else if srd < 0 then (srd, n + 1)
    else if swr < 0 then (swr, n + 1)
    else if csi = false ∧ res < 0 then (res, n + 1)
    else (0, n + 1)

/-- `mt9v113_sensor_open_init`: runs the power-up sequence with the retry
budget `SUSPEND_FAIL_RETRY_MAX_2`.  `pdd` is `data->power_down_disable`
(when set, the register-init/standby block is skipped entirely) and
`csi` is `data->csi_if` (when clear, `resume()` is invoked). -/
def mt9v113_sensor_open_init (pdd csi : Bool) (probeRc regInitRc : Nat → Int)
    (srd swr res : Int) : Int × Nat :=
  openInitGo pdd csi probeRc regInitRc srd swr res SUSPEND_FAIL_RETRY_MAX_2 0

/-! ## Parameter setters and the snapshot-mode guard -/

/-- The two values the driver stores in the global `op_mode`
(`SENSOR_PREVIEW_MODE` / `SENSOR_SNAPSHOT_MODE`, set by
`mt9v113_set_sensor_mode`). -/
inductive OpMode
  | SENSOR_PREVIEW_MODE
  | SENSOR_SNAPSHOT_MODE
deriving DecidableEq, Repr

/-- `mt9v113_set_antibanding` (src/unnamed/part_000, line 1118): begins with
`if (op_mode == SENSOR_SNAPSHOT_MODE) return 0;`.  The body after the guard
is abstracted as `rest` (the theorems below quantify over it, so they hold
whatever that body does). -/
def mt9v113_set_antibanding (op_mode : OpMode) (rest : Int × List BusOp) :
    Int × List BusOp :=
  if op_mode = OpMode.SENSOR_SNAPSHOT_MODE then (0, []) else rest

/-- `mt9v113_set_sharpness` (src/unnamed/part_000, line 1169): same
snapshot-mode guard; non-snapshot body abstracted as `rest`. -/
def mt9v113_set_sharpness (op_mode : OpMode) (rest : Int × List BusOp) :
    Int × List BusOp :=
  if op_mode = OpMode.SENSOR_SNAPSHOT_MODE then (0, []) else rest

/-- `mt9v113_set_saturation` (src/unnamed/part_000, line 1227): same
snapshot-mode guard; non-snapshot body abstracted as `rest`. -/
def mt9v113_set_saturation (op_mode : OpMode) (rest : Int × List BusOp) :
    Int × List BusOp :=
  if op_mode = OpMode.SENSOR_SNAPSHOT_MODE then (0, []) else rest

/-- `mt9v113_set_contrast` (src/unnamed/part_000, line 1288): same
snapshot-mode guard; non-snapshot body abstracted as `rest`. -/
def mt9v113_set_contrast (op_mode : OpMode) (rest : Int × List BusOp) :
    Int × List BusOp :=
  if op_mode = OpMode.SENSOR_SNAPSHOT_MODE then (0, []) else rest

/-- `mt9v113_set_brightness` (src/unnamed/part_000, line 1500): same
snapshot-mode guard; non-snapshot body abstracted as `rest`. -/
def mt9v113_set_brightness (op_mode : OpMode) (rest : Int × List BusOp) :
    Int × List BusOp :=
  if op_mode = OpMode.SENSOR_SNAPSHOT_MODE then (0, []) else rest

/-- `mt9v113_set_wb` (src/unnamed/part_000, line 1599): same snapshot-mode
guard; non-snapshot body abstracted as `rest`. -/
def mt9v113_set_wb (op_mode : OpMode) (rest : Int × List BusOp) :
    Int × List BusOp :=
  if op_mode = OpMode.SENSOR_SNAPSHOT_MODE then (0, []) else rest

/-- `enum iso_mode` values accepted by `mt9v113_set_iso`; `UNSUPPORTED`
stands for any value hitting the `default:` arm. -/
inductive IsoMode
  | CAMERA_ISO_MODE_AUTO
  | CAMERA_ISO_MODE_100
  | CAMERA_ISO_MODE_200
  | CAMERA_ISO_MODE_400
  | CAMERA_ISO_MODE_800
  | UNSUPPORTED
deriving DecidableEq, Repr

/-- The `0xA103`-status polling loop inlined in each `mt9v113_set_iso` case:
writes the status pointer, reads `0x0990`, and breaks when the value is 0.
Returns (matched before timeout, bus trace). -/
def isoCheckLoop (readVal : Nat → Nat) : Nat → Nat → Bool × List BusOp
  | 0, _ => (false, [])
  | Nat.succ fuel, k =>
    let tr := [BusOp.write 0x098C 0xA103 Width.WORD_LEN, BusOp.read 0x0990]
    if readVal k = 0 then (true, tr)
    else
      let rest := isoCheckLoop readVal fuel (k + 1)
      (rest.1, tr ++ rest.2)

/-- One valid arm of `mt9v113_set_iso`: four unconditional writes (the
source checks only the `rc` of the last one, modelled by `w4ok`), then the
status poll; `-eioErr` on write failure or poll timeout. -/
def isoCase (v : Nat) (w4ok : Bool) (readVal : Nat → Nat) : Int × List BusOp :=
  let pre := [BusOp.write 0x098C 0xA20E Width.WORD_LEN,
              BusOp.write 0x0990 v Width.WORD_LEN,
              BusOp.write 0x098C 0xA103 Width.WORD_LEN,
              BusOp.write 0x0990 0x0005 Width.WORD_LEN]
  if w4ok = false then (-eioErr, pre)
  else
    let lp := isoCheckLoop readVal CHECK_STATE_TIME 0
    if lp.1 then (0, pre ++ lp.2) else (-eioErr, pre ++ lp.2)

/-- `mt9v113_set_iso` (src/unnamed/part_000, lines 1774-1892).  Unlike the
six setters above, its source never tests the global `op_mode`; the
parameter is carried here only to exhibit that the result is independent of
it. -/
def mt9v113_set_iso (op_mode : OpMode) (iso : IsoMode) (w4ok : Bool)
    (readVal : Nat → Nat) : Int × List BusOp :=
  match iso with
  | IsoMode.CAMERA_ISO_MODE_AUTO => isoCase 0x0080 w4ok readVal
  | IsoMode.CAMERA_ISO_MODE_100 => isoCase 0x0026 w4ok readVal
  | IsoMode.CAMERA_ISO_MODE_200 => isoCase 0x0046 w4ok readVal
  | IsoMode.CAMERA_ISO_MODE_400 => isoCase 0x0078 w4ok readVal
  | IsoMode.CAMERA_ISO_MODE_800 => isoCase 0x00A0 w4ok readVal
  | IsoMode.UNSUPPORTED => (-EINVAL, [])

/-! ## Frame-rate setting and its cache: `mt9v113_set_FPS` -/

/-- The static locals of `mt9v113_set_FPS`: `pre_fps_cfg.fps_div`
(initialised to -1) and `pre_op_mode` (initialised to -1, which never equals
a mode constant, modelled by `none`). -/
structure FpsState where
  pre_fps_div : Int
  pre_op_mode : Option OpMode
deriving DecidableEq, Repr

/-- The initial values of `mt9v113_set_FPS`'s static locals. -/
def initialFpsState : FpsState := { pre_fps_div := -1, pre_op_mode := none }

/-- `mt9v113_detect_sensor_status` (src/unnamed/part_000, lines 2112-2131):
polls `0xA103` via `0x0990` up to `CHECK_STATE_TIME` times; always returns
0, so only its bus trace is modelled. -/
def detectGo (readVal : Nat → Nat) : Nat → Nat → List BusOp
  | 0, _ => []
  | Nat.succ fuel, k =>
    let tr := [BusOp.write 0x098C 0xA103 Width.WORD_LEN, BusOp.read 0x0990]
    if readVal k = 0 then tr else tr ++ detectGo readVal fuel (k + 1)

/-- Trace of one `mt9v113_detect_sensor_status` call. -/
def mt9v113_detect_sensor_status (readVal : Nat → Nat) : List BusOp :=
  detectGo readVal CHECK_STATE_TIME 0

/-- The hardware-programming tail of `mt9v113_set_FPS`: bus writes for the
recognised divisors 10, 15, 1015 and 0, each followed by the status-detect
polls; any other divisor matches no branch and issues nothing. -/
def fpsProgram (fps_div : Int) (r1 r2 : Nat → Nat) : List BusOp :=
  if fps_div = 10 then
    [BusOp.write 0x098C 0x271F Width.WORD_LEN, BusOp.write 0x0990 0x067E Width.WORD_LEN,
     BusOp.write 0x098C 0xA103 Width.WORD_LEN, BusOp.write 0x0990 0x0006 Width.WORD_LEN]
    ++ mt9v113_detect_sensor_status r1
    ++ [BusOp.write 0x098C 0xA20C Width.WORD_LEN, BusOp.write 0x0990 0x000C Width.WORD_LEN,
        BusOp.write 0x098C 0xA103 Width.WORD_LEN, BusOp.write 0x0990 0x0005 Width.WORD_LEN]
    ++ mt9v113_detect_sensor_status r2
  else if fps_div = 15 then
    [BusOp.write 0x098C 0x271F Width.WORD_LEN, BusOp.write 0x0990 0x0454 Width.WORD_LEN,
     BusOp.write 0x098C 0xA103 Width.WORD_LEN, BusOp.write 0x0990 0x0006 Width.WORD_LEN]
    ++ mt9v113_detect_sensor_status r1
    ++ [BusOp.write 0x098C 0xA20C Width.WORD_LEN, BusOp.write 0x0990 0x0004 Width.WORD_LEN,
        BusOp.write 0x098C 0xA103 Width.WORD_LEN, BusOp.write 0x0990 0x0005 Width.WORD_LEN]
    ++ mt9v113_detect_sensor_status r2
  else if fps_div = 1015 then
    [BusOp.write 0x098C 0x271F Width.WORD_LEN, BusOp.write 0x0990 0x0454 Width.WORD_LEN,
     BusOp.write 0x098C 0xA103 Width.WORD_LEN, BusOp.write 0x0990 0x0006 Width.WORD_LEN]
    ++ mt9v113_detect_sensor_status r1
    ++ [BusOp.write 0x098C 0xA20C Width.WORD_LEN, BusOp.write 0x0990 0x000C Width.WORD_LEN,
        BusOp.write 0x098C 0xA103 Width.WORD_LEN, BusOp.write 0x0990 0x0005 Width.WORD_LEN]
    ++ mt9v113_detect_sensor_status r2
  else if fps_div = 0 then
    [BusOp.write 0x098C 0x271F Width.WORD_LEN, BusOp.write 0x0990 0x022A Width.WORD_LEN,
     BusOp.write 0x098C 0xA103 Width.WORD_LEN, BusOp.write 0x0990 0x0006 Width.WORD_LEN]
    ++ mt9v113_detect_sensor_status r1
    ++ [BusOp.write 0x098C 0xA20C Width.WORD_LEN, BusOp.write 0x0990 0x000C Width.WORD_LEN,
        BusOp.write 0x098C 0xA215 Width.WORD_LEN, BusOp.write 0x0990 0x0008 Width.WORD_LEN,
        BusOp.write 0x098C 0xA103 Width.WORD_LEN, BusOp.write 0x0990 0x0005 Width.WORD_LEN]
    ++ mt9v113_detect_sensor_status r2
  else []

/-- `mt9v113_set_FPS` (src/unnamed/part_000, lines 2135-2223): resets the
divisor cache when `op_mode` changed since the previous call, returns 0
immediately on a cache hit, and otherwise records the new divisor and runs
the programming branch for it.  Returns (rc, updated statics, bus trace). -/
def mt9v113_set_FPS (st : FpsState) (op_mode : OpMode) (fps_div : Int)
    (r1 r2 : Nat → Nat) : Int × FpsState × List BusOp :=
  let st1 := if st.pre_op_mode ≠ some op_mode then
      { pre_fps_div := -1, pre_op_mode := some op_mode } else st
  if st1.pre_fps_div = fps_div then (0, st1, [])
  else (0, { pre_fps_div := fps_div, pre_op_mode := st1.pre_op_mode },
        fpsProgram fps_div r1 r2)

/-! ## Actuator Position Controller (src/unnamed/part_001) -/

/-- `#define OV5693_TOTAL_STEPS_NEAR_TO_FAR 52` (non-rawchip build). -/
def OV5693_TOTAL_STEPS_NEAR_TO_FAR : Nat := 52

/-- `#define REG_VCM_CODE_MSB 0x03` -/
def REG_VCM_CODE_MSB : Nat := 0x03

/-- `#define REG_VCM_CODE_LSB 0x04` -/
def REG_VCM_CODE_LSB : Nat := 0x04

/-- Focus direction argument of `move_focus`; `illegal` stands for any value
that is neither `MOVE_NEAR` nor `MOVE_FAR`. -/
inductive FocusDir
  | MOVE_NEAR
  | MOVE_FAR
  | illegal
deriving DecidableEq, Repr

/-- The actuator-controller fields `ov5693_msm_actuator_move_focus` touches:
the current logical step, the step bound from `set_info`, and the built
step-position table (drive code per step). -/
structure ActuatorCtrl where
  curr_step_pos : Nat
  total_steps : Nat
  step_position_table : Nat → Nat

/-- Two's-complement truncation to `int16_t`, as performed by the C
assignment `int16_t dest_step_pos = curr + sign_dir * num_steps` (the right
side is computed in 32-bit int). -/
def toInt16 (x : Int) : Int := (x + 32768) % 65536 - 32768

/-- `ov5693_wrapper_i2c_write` (src/unnamed/part_001, lines 275-299): writes
the high bits of the drive code to `REG_VCM_CODE_MSB` and, only if that
succeeded, the low byte to `REG_VCM_CODE_LSB`; surfaces the first failing
write's error (modelled as `-eioErr`; the source propagates the i2c layer's
negative rc). -/
def ov5693_wrapper_i2c_write (msbOk lsbOk : Bool) (next_lens_position : Nat) :
    Int × List BusOp :=
  let msbOp := BusOp.write REG_VCM_CODE_MSB ((next_lens_position &&& 0x0300) >>> 8)
      Width.BYTE_LEN
  if msbOk = false then (-eioErr, [msbOp])
  else
    let lsbOp := BusOp.write REG_VCM_CODE_LSB (next_lens_position &&& 0x00FF)
        Width.BYTE_LEN
    if lsbOk = false then (-eioErr, [msbOp, lsbOp])
    else (0, [msbOp, lsbOp])

/-- `ov5693_msm_actuator_move_focus` (src/unnamed/part_001, lines 215-263):
maps the direction to a ±1 sign, computes the `int16_t` destination, clamps
it to `[0, total_steps]`, returns immediately when the clamped destination
equals the current position, and otherwise issues the two-register drive
code write, updating `curr_step_pos` only when it succeeds.  Returns
(rc, updated controller, bus trace). -/
def ov5693_msm_actuator_move_focus (a_ctrl : ActuatorCtrl) (msbOk lsbOk : Bool)
    (dir : FocusDir) (num_steps : Int) : Int × ActuatorCtrl × List BusOp :=
  match dir with
  | FocusDir.illegal => (-EINVAL, a_ctrl, [])
  | _ =>
    let sign_dir : Int := if dir = FocusDir.MOVE_NEAR then 1 else -1
    let dest0 : Int := toInt16 ((a_ctrl.curr_step_pos : Int) + sign_dir * num_steps)
    let dest : Int :=
      if dest0 < 0 then 0
      else if dest0 > (a_ctrl.total_steps : Int) then (a_ctrl.total_steps : Int)
      else dest0
    if dest = (a_ctrl.curr_step_pos : Int) then (0, a_ctrl, [])
    else
      let w := ov5693_wrapper_i2c_write msbOk lsbOk (a_ctrl.step_position_table dest.toNat)
      if w.1 < 0 then (w.1, a_ctrl, w.2)
      else (0, { a_ctrl with curr_step_pos := dest.toNat }, w.2)

/-- Spec-side destination of a move: the mathematical
`clamp (current + direction*steps) [0, total_steps]`, with no intermediate
truncation. -/
def specDest (curr total : Nat) (dir : FocusDir) (num_steps : Int) : Int :=
  let sign : Int := if dir = FocusDir.MOVE_NEAR then 1 else -1
  max 0 (min (total : Int) ((curr : Int) + sign * num_steps))

/-! ## Claim theorems -/

/-- C3: every bus transaction is attempted up to `MAX_I2C_RETRIES` (20)
times; if every attempt fails the operation returns `-eioErr` after exactly 20
attempts (with an inter-attempt sleep after each failed attempt), and if the
j-th attempt is the first to succeed it returns 0 — no error surfaced —
after j+1 attempts. -/
theorem c3_transfer_retry_spec (transfer : Nat → Bool) :
    ((∀ i, i < MAX_I2C_RETRIES → transfer i = false) →
      i2c_transfer_retry transfer = (-eioErr, MAX_I2C_RETRIES, MAX_I2C_RETRIES)) ∧
    (∀ j, j < MAX_I2C_RETRIES → (∀ i, i < j → transfer i = false) →
      transfer j = true →
      i2c_transfer_retry transfer = (0, j + 1, j)) := by
  constructor
  · intro h
    have hh := transferRetryGo_all_fail transfer MAX_I2C_RETRIES 0
      (by intro i h1 h2; exact h i (by omega))
    simpa [i2c_transfer_retry] using hh
  · intro j hj hf hs
    have hh := transferRetryGo_first_success transfer j MAX_I2C_RETRIES 0 hj
      (by intro i h1 h2; exact hf i (by omega)) (by simpa using hs)
    simpa [i2c_transfer_retry] using hh

/-- Witness for C3: a transport that succeeds on its third attempt yields
success after 3 attempts and 2 sleeps; one that never succeeds yields
`-eioErr` after all 20 attempts. -/
theorem c3_transfer_retry_spec_witness :
    i2c_transfer_retry (fun k => decide (k = 2)) = (0, 3, 2) ∧
    i2c_transfer_retry (fun _ => false) = (-eioErr, MAX_I2C_RETRIES, MAX_I2C_RETRIES) :=
  ⟨(c3_transfer_retry_spec (fun k => decide (k = 2))).2 2 (by decide)
      (by decide) (by decide),
   (c3_transfer_retry_spec (fun _ => false)).1 (by intro i _; rfl)⟩

/-- C5: the poll primitive succeeds (returning 1) on the first iteration
whose masked register value matches the requested set/clear state, after
exactly j+1 reads; if no iteration among `CHECK_STATE_TIME` (100) matches
it returns the timeout code -1 after exactly 100 reads; and the poll itself
never reads more than 100 times (the timeout is not retried internally). -/
theorem c5_check_bit_spec (readVal : Nat → Nat) (bit : Nat) (cs : Bool) :
    (∀ j, j < CHECK_STATE_TIME →
      (∀ i, i < j → bitMatch (readVal i) ((1 <<< bit) % 65536) cs = false) →
      bitMatch (readVal j) ((1 <<< bit) % 65536) cs = true →
      mt9v113_i2c_check_bit readVal bit cs = (1, j + 1)) ∧
    ((∀ i, i < CHECK_STATE_TIME →
        bitMatch (readVal i) ((1 <<< bit) % 65536) cs = false) →
      mt9v113_i2c_check_bit readVal bit cs = (-1, CHECK_STATE_TIME)) ∧
    (mt9v113_i2c_check_bit readVal bit cs).2 ≤ CHECK_STATE_TIME := by
  refine ⟨?_, ?_, ?_⟩
  · intro j hj hf hs
    have hh := checkBitGo_first_match readVal ((1 <<< bit) % 65536) cs j
      CHECK_STATE_TIME 0 hj (by intro i h1 h2; exact hf i (by omega))
      (by simpa using hs)
    simpa [mt9v113_i2c_check_bit] using hh
  · intro h
    have hh := checkBitGo_no_match readVal ((1 <<< bit) % 65536) cs
      CHECK_STATE_TIME 0 (by intro i h1 h2; exact h i (by omega))
    simpa [mt9v113_i2c_check_bit] using hh
  · have hh := checkBitGo_reads_le readVal ((1 <<< bit) % 65536) cs CHECK_STATE_TIME 0
    simpa [mt9v113_i2c_check_bit] using hh

/-- Witness for C5: a register whose bit 1 first reads as set on iteration 3
makes the poll succeed with 4 reads; a register that never sets bit 0 makes
it time out after 100 reads. -/
theorem c5_check_bit_spec_witness :
    mt9v113_i2c_check_bit (fun k => if k = 3 then 2 else 0) 1 true = (1, 4) ∧
    mt9v113_i2c_check_bit (fun _ => 0) 0 true = (-1, CHECK_STATE_TIME) :=
  ⟨(c5_check_bit_spec (fun k => if k = 3 then 2 else 0) 1 true).1 3 (by decide)
      (by decide) (by decide),
   (c5_check_bit_spec (fun _ => 0) 0 true).2.1 (by decide)⟩

/-- C2: with the external gpio/clock steps succeeding,
`mt9v113_probe_init_sensor` reads the identity register 0x0000 once;
it succeeds exactly when the value is the signature 0x2280, and on any
other value it fails with `-EINVAL` having issued no further bus call
(its whole trace is that single read).  A failed probe is never retried:
`mt9v113_sensor_open_init` returns after a single probe attempt whenever
the probe's result is negative. -/
theorem c2_probe_identity (v : Nat) :
    (v = MT9V113_MODEL_ID →
      mt9v113_probe_init_sensor 0 0 0 (some v) =
        (0, [BusOp.read MT9V113_MODEL_ID_ADDR])) ∧
    (v ≠ MT9V113_MODEL_ID →
      mt9v113_probe_init_sensor 0 0 0 (some v) =
        (-EINVAL, [BusOp.read MT9V113_MODEL_ID_ADDR])) ∧
    (∀ (pdd csi : Bool) (probeRc regInitRc : Nat → Int) (srd swr res : Int),
      probeRc 0 < 0 →
      mt9v113_sensor_open_init pdd csi probeRc regInitRc srd swr res =
        (probeRc 0, 1)) := by
  refine ⟨?_, ?_, ?_⟩
  · intro h
    simp [mt9v113_probe_init_sensor, h]
  · intro h
    simp [mt9v113_probe_init_sensor, h]
  · intro pdd csi probeRc regInitRc srd swr res h
    show openInitGo pdd csi probeRc regInitRc srd swr res SUSPEND_FAIL_RETRY_MAX_2 0 = _
    rw [openInitGo.eq_def]
    simp [h]

/-- Witness for C2: the signature value succeeds, 0x1234 fails with
`-EINVAL` and a one-read trace, and a probe failure aborts
`mt9v113_sensor_open_init` after one attempt. -/
theorem c2_probe_identity_witness :
    mt9v113_probe_init_sensor 0 0 0 (some 0x2280) =
      (0, [BusOp.read MT9V113_MODEL_ID_ADDR]) ∧
    mt9v113_probe_init_sensor 0 0 0 (some 0x1234) =
      (-EINVAL, [BusOp.read MT9V113_MODEL_ID_ADDR]) ∧
    mt9v113_sensor_open_init false false (fun _ => -EINVAL) (fun _ => 0) 0 0 0 =
      (-EINVAL, 1) :=
  ⟨(c2_probe_identity 0x2280).1 (by decide),
   (c2_probe_identity 0x1234).2.1 (by decide),
   (c2_probe_identity 0).2.2 false false (fun _ => -EINVAL) (fun _ => 0) 0 0 0
     (by norm_num [EINVAL])⟩

lemma openInitGo_all_reg_fail (csi : Bool) (probeRc regInitRc : Nat → Int)
    (srd swr res : Int) (hp : ∀ i, probeRc i ≥ 0) (hr : ∀ i, regInitRc i < 0) :
    ∀ count n, openInitGo false csi probeRc regInitRc srd swr res count n =
      (regInitRc (n + count), n + count + 1) := by
  intro count
  induction count with
  | zero =>
    intro n
    rw [openInitGo.eq_def]
    have h1 : ¬ probeRc n < 0 := by have := hp n; omega
    simp [h1, hr n]
  | succ c ih =>
    intro n
    rw [openInitGo.eq_def]
    have h1 : ¬ probeRc n < 0 := by have := hp n; omega
    have h2 := ih (n + 1)
    simp only [h1, if_false, Bool.false_eq_true, hr n, if_true]
    simp [h2]
    constructor
    · congr 1
      omega
    · omega

lemma openInitGo_first_reg_success (csi : Bool) (probeRc regInitRc : Nat → Int)
    (srd swr res : Int) (hp : ∀ i, probeRc i ≥ 0) (hsrd : srd ≥ 0)
    (hswr : swr ≥ 0) (hres : res ≥ 0) :
    ∀ k count n, k ≤ count → (∀ i, n ≤ i → i < n + k → regInitRc i < 0) →
      regInitRc (n + k) ≥ 0 →
      openInitGo false csi probeRc regInitRc srd swr res count n = (0, n + k + 1) := by
  intro k
  induction k with
  | zero =>
    intro count n _ _ hk
    rw [openInitGo.eq_def]
    have h1 : ¬ probeRc n < 0 := by have := hp n; omega
    have h2 : ¬ regInitRc n < 0 := by simp at hk; omega
    have h3 : ¬ srd < 0 := by omega
    have h4 : ¬ swr < 0 := by omega
    have h5 : ¬ (csi = false ∧ res < 0) := by
      rintro ⟨_, hc⟩; omega
    simp [h1, h2, h3, h4, h5]
  | succ k ih =>
    intro count n hc hf hk
    match count, hc with
    | Nat.succ c, hc =>
      rw [openInitGo.eq_def]
      have h1 : ¬ probeRc n < 0 := by have := hp n; omega
      have h2 : regInitRc n < 0 := hf n (Nat.le_refl n) (by omega)
      have ht := ih c (n + 1) (by omega)
        (by intro i hi1 hi2; exact hf i (by omega) (by omega))
        (by have : n + 1 + k = n + (k + 1) := by omega
            rw [this]; exact hk)
      simp [h1, h2, ht]
      omega

/-- C1 (amended): in `mt9v113_sensor_open_init` (with the power-down path
enabled), a `mt9v113_reg_init` failure makes the whole probe+reg-init
sequence retry; with the budget `SUSPEND_FAIL_RETRY_MAX_2` (3) the sequence
runs at most 4 times, succeeding as soon as one full attempt succeeds
(k failing attempts followed by a good one give rc 0 after k+1 attempts),
and reporting failure after the 4th reg-init failure; a probe/identify
failure instead aborts immediately, after a single attempt, without
consuming the retry budget. -/
theorem c1_power_up_retry (csi : Bool) (probeRc regInitRc : Nat → Int)
    (srd swr res : Int) :
    ((∀ i, probeRc i ≥ 0) → srd ≥ 0 → swr ≥ 0 → res ≥ 0 →
      ∀ k, k ≤ SUSPEND_FAIL_RETRY_MAX_2 → (∀ i, i < k → regInitRc i < 0) →
        regInitRc k ≥ 0 →
        mt9v113_sensor_open_init false csi probeRc regInitRc srd swr res =
          (0, k + 1)) ∧
    ((∀ i, probeRc i ≥ 0) → (∀ i, regInitRc i < 0) →
      mt9v113_sensor_open_init false csi probeRc regInitRc srd swr res =
        (regInitRc SUSPEND_FAIL_RETRY_MAX_2, SUSPEND_FAIL_RETRY_MAX_2 + 1)) ∧
    (probeRc 0 < 0 →
      mt9v113_sensor_open_init false csi probeRc regInitRc srd swr res =
        (probeRc 0, 1)) := by
  refine ⟨?_, ?_, ?_⟩
  · intro hp h1 h2 h3 k hk hf hs
    have hh := openInitGo_first_reg_success csi probeRc regInitRc srd swr res
      hp h1 h2 h3 k SUSPEND_FAIL_RETRY_MAX_2 0 hk
      (by intro i hi1 hi2; exact hf i (by omega)) (by simpa using hs)
    simpa [mt9v113_sensor_open_init] using hh
  · intro hp hr
    have hh := openInitGo_all_reg_fail csi probeRc regInitRc srd swr res hp hr
      SUSPEND_FAIL_RETRY_MAX_2 0
    simpa [mt9v113_sensor_open_init] using hh
  · intro h
    show openInitGo false csi probeRc regInitRc srd swr res SUSPEND_FAIL_RETRY_MAX_2 0 = _
    rw [openInitGo.eq_def]
    simp [h]

/-- Witness for C1: the spec's scenario — the first full attempt fails in
register init, the second succeeds — gives overall success after exactly 2
full attempts; and with register init always failing the operation fails
after exactly 4 attempts (1 + 3 retries). -/
theorem c1_power_up_retry_witness :
    mt9v113_sensor_open_init false false (fun _ => 0)
      (fun n => if n = 0 then -eioErr else 0) 0 0 0 = (0, 2) ∧
    mt9v113_sensor_open_init false false (fun _ => 0) (fun _ => -eioErr) 0 0 0 =
      (-eioErr, 4) :=
  ⟨(c1_power_up_retry false (fun _ => 0) (fun n => if n = 0 then -eioErr else 0)
      0 0 0).1 (fun _ => by norm_num) (by norm_num) (by norm_num) (by norm_num)
      1 (by norm_num [SUSPEND_FAIL_RETRY_MAX_2])
      (by intro i hi; interval_cases i; norm_num [eioErr]) (by norm_num),
   (c1_power_up_retry false (fun _ => 0) (fun _ => -eioErr) 0 0 0).2.1
      (fun _ => by norm_num) (fun _ => by norm_num [eioErr])⟩

/-- Counterexample for C1 as stated: when the probe half of the power-up
sequence fails (here: identity mismatch, rc `-EINVAL`), the operation
reports permanent failure after a single full attempt even though the
retry budget would allow 1 + `SUSPEND_FAIL_RETRY_MAX_2` = 4 attempts —
the retry budget is not consumed before failure is declared. -/
theorem c1_power_up_retry_counterexample :
    mt9v113_sensor_open_init false false (fun _ => -EINVAL) (fun _ => 0) 0 0 0 =
      (-EINVAL, 1) ∧ (1 : Nat) < 1 + SUSPEND_FAIL_RETRY_MAX_2 := by
  constructor
  · show openInitGo false false (fun _ => -EINVAL) (fun _ => 0) 0 0 0
      SUSPEND_FAIL_RETRY_MAX_2 0 = _
    rw [openInitGo.eq_def]
    norm_num [EINVAL]
  · norm_num [SUSPEND_FAIL_RETRY_MAX_2]

lemma writeTableGo_all_ok (writeOk : Nat → Bool) :
    ∀ (tbl : List mt9v113_i2c_reg_conf) (i : Nat) (rc0 : Int),
      (∀ m, m < tbl.length → writeOk (i + m) = true) →
      writeTableGo writeOk i rc0 tbl =
        ((if tbl.isEmpty then rc0 else 0), appliedTrace tbl) := by
  intro tbl
  induction tbl with
  | nil => intro i rc0 _; simp [writeTableGo, appliedTrace]
  | cons e rest ih =>
    intro i rc0 h
    have h0 : writeOk i = true := by simpa using h 0 (by simp)
    have ht := ih (i + 1) 0 (by intro m hm; have := h (m + 1) (by simp; omega)
                                have h2 : i + 1 + m = i + (m + 1) := by omega
                                rw [h2]; exact this)
    by_cases hd : e.mdelay_time = 0
    · simp [writeTableGo, h0, ht, appliedTrace, hd]
    · simp [writeTableGo, h0, ht, appliedTrace, hd]

lemma writeTableGo_first_fail (writeOk : Nat → Bool) :
    ∀ (tbl : List mt9v113_i2c_reg_conf) (j i : Nat) (rc0 : Int)
      (hj : j < tbl.length),
      (∀ m, m < j → writeOk (i + m) = true) → writeOk (i + j) = false →
      writeTableGo writeOk i rc0 tbl =
        (-eioErr, appliedTrace (tbl.take j) ++
          [Event.write (tbl.get ⟨j, hj⟩).waddr (tbl.get ⟨j, hj⟩).wdata
            (tbl.get ⟨j, hj⟩).width]) := by
  intro tbl
  induction tbl with
  | nil => intro j i rc0 hj; simp at hj
  | cons e rest ih =>
    intro j i rc0 hj hok hfail
    match j with
    | 0 =>
      simp at hfail
      simp [writeTableGo, hfail, appliedTrace]
    | Nat.succ j =>
      have h0 : writeOk i = true := by simpa using hok 0 (by omega)
      have ht := ih j (i + 1) 0 (by simpa using hj)
        (by intro m hm
            have := hok (m + 1) (by omega)
            have h2 : i + 1 + m = i + (m + 1) := by omega
            rw [h2]; exact this)
        (by have h2 : i + 1 + j = i + (j + 1) := by omega
            rw [h2]; exact hfail)
      by_cases hd : e.mdelay_time = 0
      · simp [writeTableGo, h0, ht, appliedTrace, hd]
      · simp [writeTableGo, h0, ht, appliedTrace, hd]

/-- C4: the table writer issues the entries' writes to the bus in exactly
the input order with the per-entry sleep after each write whose delay is
non-zero (its full-success trace is precisely `appliedTrace`); at the first
failing write it stops immediately — the trace is the applied prefix
followed by the failed write, whose event carries the address it stopped
at — surfaces `-eioErr`, and performs no rollback (no event beyond that
prefix).  An empty table returns the initial `-eioErr` (a quirk of the
source's `rc` initialisation). -/
theorem c4_write_table_order_and_stop (writeOk : Nat → Bool)
    (tbl : List mt9v113_i2c_reg_conf) :
    ((∀ i, i < tbl.length → writeOk i = true) →
      mt9v113_i2c_write_table writeOk tbl =
        ((if tbl.isEmpty then -eioErr else 0), appliedTrace tbl)) ∧
    (∀ j (hj : j < tbl.length), (∀ i, i < j → writeOk i = true) →
      writeOk j = false →
      mt9v113_i2c_write_table writeOk tbl =
        (-eioErr, appliedTrace (tbl.take j) ++
          [Event.write (tbl.get ⟨j, hj⟩).waddr (tbl.get ⟨j, hj⟩).wdata
            (tbl.get ⟨j, hj⟩).width])) := by
  constructor
  · intro h
    have hh := writeTableGo_all_ok writeOk tbl 0 (-eioErr)
      (by intro m hm; simpa using h m hm)
    simpa [mt9v113_i2c_write_table] using hh
  · intro j hj hok hfail
    have hh := writeTableGo_first_fail writeOk tbl j 0 (-eioErr) hj
      (by intro m hm; simpa using hok m hm) (by simpa using hfail)
    simpa [mt9v113_i2c_write_table] using hh

/-- Witness for C4: a three-entry table applied on a fully working bus
produces exactly the in-order trace with the middle entry's sleep; the same
table on a bus that fails at the second write stops right there with
`-eioErr`. -/
theorem c4_write_table_order_and_stop_witness :
    mt9v113_i2c_write_table (fun _ => true)
      [⟨0x0010, 0x021C, Width.WORD_LEN, 0⟩, ⟨0x0018, 0x4028, Width.WORD_LEN, 10⟩,
       ⟨0x001A, 0x0210, Width.WORD_LEN, 0⟩] =
      (0, [Event.write 0x0010 0x021C Width.WORD_LEN,
           Event.write 0x0018 0x4028 Width.WORD_LEN, Event.sleep 10,
           Event.write 0x001A 0x0210 Width.WORD_LEN]) ∧
    mt9v113_i2c_write_table (fun i => decide (i < 1))
      [⟨0x0010, 0x021C, Width.WORD_LEN, 0⟩, ⟨0x0018, 0x4028, Width.WORD_LEN, 10⟩,
       ⟨0x001A, 0x0210, Width.WORD_LEN, 0⟩] =
      (-eioErr, [Event.write 0x0010 0x021C Width.WORD_LEN,
              Event.write 0x0018 0x4028 Width.WORD_LEN]) :=
  ⟨by
    have hh := (c4_write_table_order_and_stop (fun _ => true)
      [⟨0x0010, 0x021C, Width.WORD_LEN, 0⟩, ⟨0x0018, 0x4028, Width.WORD_LEN, 10⟩,
       ⟨0x001A, 0x0210, Width.WORD_LEN, 0⟩]).1 (by decide)
    simpa [appliedTrace] using hh,
   by
    have hh := (c4_write_table_order_and_stop (fun i => decide (i < 1))
      [⟨0x0010, 0x021C, Width.WORD_LEN, 0⟩, ⟨0x0018, 0x4028, Width.WORD_LEN, 10⟩,
       ⟨0x001A, 0x0210, Width.WORD_LEN, 0⟩]).2 1 (by decide) (by decide) (by decide)
    simpa [appliedTrace] using hh⟩

lemma isoCase_trace_ne_nil (v : Nat) (w4ok : Bool) (readVal : Nat → Nat) :
    (isoCase v w4ok readVal).2 ≠ [] := by
  by_cases h : w4ok = false
  · simp [isoCase, h]
  · by_cases h2 : (isoCheckLoop readVal CHECK_STATE_TIME 0).1
    · simp [isoCase, h, h2]
    · simp [isoCase, h, h2]

lemma fpsProgram_ne_nil (r1 r2 : Nat → Nat) (d : Int)
    (hd : d = 0 ∨ d = 10 ∨ d = 15 ∨ d = 1015) :
    fpsProgram d r1 r2 ≠ [] := by
  rcases hd with h | h | h | h <;> subst h <;> simp [fpsProgram]

/-- C6 (amended): in snapshot mode the setters for antibanding, sharpness,
saturation, contrast, brightness and white balance return success
immediately with no bus transaction (whatever their non-snapshot body
would do); but `mt9v113_set_iso` never consults the operating mode — any
supported ISO value issues bus transactions even in snapshot mode — and
`mt9v113_set_FPS` likewise writes in snapshot mode whenever its divisor
cache misses on a recognised divisor. -/
theorem c6_snapshot_noop_guard :
    (∀ rest, mt9v113_set_antibanding OpMode.SENSOR_SNAPSHOT_MODE rest = (0, [])) ∧
    (∀ rest, mt9v113_set_sharpness OpMode.SENSOR_SNAPSHOT_MODE rest = (0, [])) ∧
    (∀ rest, mt9v113_set_saturation OpMode.SENSOR_SNAPSHOT_MODE rest = (0, [])) ∧
    (∀ rest, mt9v113_set_contrast OpMode.SENSOR_SNAPSHOT_MODE rest = (0, [])) ∧
    (∀ rest, mt9v113_set_brightness OpMode.SENSOR_SNAPSHOT_MODE rest = (0, [])) ∧
    (∀ rest, mt9v113_set_wb OpMode.SENSOR_SNAPSHOT_MODE rest = (0, [])) ∧
    (∀ (m : OpMode) (iso : IsoMode) (w4ok : Bool) (readVal : Nat → Nat),
      iso ≠ IsoMode.UNSUPPORTED →
      (mt9v113_set_iso m iso w4ok readVal).2 ≠ []) ∧
    (∀ (st : FpsState) (d : Int) (r1 r2 : Nat → Nat),
      st.pre_op_mode ≠ some OpMode.SENSOR_SNAPSHOT_MODE →
      (d = 0 ∨ d = 10 ∨ d = 15 ∨ d = 1015) →
      (mt9v113_set_FPS st OpMode.SENSOR_SNAPSHOT_MODE d r1 r2).2.2 ≠ []) := by
  refine ⟨?_, ?_, ?_, ?_, ?_, ?_, ?_, ?_⟩
  · intro rest; simp [mt9v113_set_antibanding]
  · intro rest; simp [mt9v113_set_sharpness]
  · intro rest; simp [mt9v113_set_saturation]
  · intro rest; simp [mt9v113_set_contrast]
  · intro rest; simp [mt9v113_set_brightness]
  · intro rest; simp [mt9v113_set_wb]
  · intro m iso w4ok readVal hiso
    cases iso <;> simp [mt9v113_set_iso] <;>
      first
        | exact isoCase_trace_ne_nil _ _ _
        | exact absurd rfl hiso
  · intro st d r1 r2 hm hd
    have hne : (-1 : Int) ≠ d := by rcases hd with h | h | h | h <;> omega
    simp [mt9v113_set_FPS, hm, hne]
    exact fpsProgram_ne_nil r1 r2 d hd

/-- Witness for C6: concrete instances — antibanding in snapshot mode is a
silent no-op even if its body would have written, ISO-auto in snapshot mode
still produces a non-empty bus trace, and a recognised-divisor FPS call in
snapshot mode after a mode change writes to the bus. -/
theorem c6_snapshot_noop_guard_witness :
    mt9v113_set_antibanding OpMode.SENSOR_SNAPSHOT_MODE
      (-eioErr, [BusOp.write 0x098C 0xA404 Width.WORD_LEN]) = (0, []) ∧
    (mt9v113_set_iso OpMode.SENSOR_SNAPSHOT_MODE IsoMode.CAMERA_ISO_MODE_AUTO
      true (fun _ => 0)).2 ≠ [] ∧
    (mt9v113_set_FPS initialFpsState OpMode.SENSOR_SNAPSHOT_MODE 10
      (fun _ => 0) (fun _ => 0)).2.2 ≠ [] :=
  ⟨c6_snapshot_noop_guard.1 (-eioErr, [BusOp.write 0x098C 0xA404 Width.WORD_LEN]),
   c6_snapshot_noop_guard.2.2.2.2.2.2.1 OpMode.SENSOR_SNAPSHOT_MODE
     IsoMode.CAMERA_ISO_MODE_AUTO true (fun _ => 0) (by decide),
   c6_snapshot_noop_guard.2.2.2.2.2.2.2 initialFpsState 10 (fun _ => 0)
     (fun _ => 0) (by decide) (by norm_num)⟩

/-- Counterexample for C6 as stated: `mt9v113_set_iso` invoked in snapshot
mode with the valid value `CAMERA_ISO_MODE_AUTO` returns success yet issues
bus transactions (first write: `0x098C ← 0xA20E`), because its source never
tests `op_mode` — it is not a no-op. -/
theorem c6_snapshot_noop_guard_counterexample :
    (mt9v113_set_iso OpMode.SENSOR_SNAPSHOT_MODE IsoMode.CAMERA_ISO_MODE_AUTO
      true (fun _ => 0)).1 = 0 ∧
    (mt9v113_set_iso OpMode.SENSOR_SNAPSHOT_MODE IsoMode.CAMERA_ISO_MODE_AUTO
      true (fun _ => 0)).2 =
      [BusOp.write 0x098C 0xA20E Width.WORD_LEN,
       BusOp.write 0x0990 0x0080 Width.WORD_LEN,
       BusOp.write 0x098C 0xA103 Width.WORD_LEN,
       BusOp.write 0x0990 0x0005 Width.WORD_LEN,
       BusOp.write 0x098C 0xA103 Width.WORD_LEN,
       BusOp.read 0x0990] := by
  constructor <;> decide

/-- C10 (amended): `mt9v113_set_FPS` caches the last applied divisor per
operating mode: with the statics recording divisor `d` under mode `m`
(the state any completed call leaves behind), a repeat call with the same
mode and divisor returns 0 at once with no bus transaction and an unchanged
cache.  A mode change invalidates the cache, so the next call falls through
to the programming path: it reprograms the hardware when the divisor is one
of the recognised values 0, 10, 15, 1015, but for any other divisor (other
than the sentinel -1) it merely records the divisor and issues no bus
write. -/
theorem c10_fps_cache (m : OpMode) (d : Int) (r1 r2 : Nat → Nat) :
    (mt9v113_set_FPS { pre_fps_div := d, pre_op_mode := some m } m d r1 r2 =
      (0, { pre_fps_div := d, pre_op_mode := some m }, [])) ∧
    (∀ st : FpsState, st.pre_op_mode ≠ some m →
      (d = 0 ∨ d = 10 ∨ d = 15 ∨ d = 1015) →
      mt9v113_set_FPS st m d r1 r2 =
        (0, { pre_fps_div := d, pre_op_mode := some m }, fpsProgram d r1 r2) ∧
      fpsProgram d r1 r2 ≠ []) ∧
    (∀ st : FpsState, st.pre_op_mode ≠ some m →
      ¬ (d = 0 ∨ d = 10 ∨ d = 15 ∨ d = 1015) → d ≠ -1 →
      (mt9v113_set_FPS st m d r1 r2).2.2 = []) := by
  refine ⟨?_, ?_, ?_⟩
  · simp [mt9v113_set_FPS]
  · intro st hm hd
    have hne : (-1 : Int) ≠ d := by rcases hd with h | h | h | h <;> omega
    refine ⟨?_, fpsProgram_ne_nil r1 r2 d hd⟩
    simp [mt9v113_set_FPS, hm, hne]
  · intro st hm hd hne
    have hne2 : (-1 : Int) ≠ d := fun h => hne h.symm
    push_neg at hd
    obtain ⟨h0, h10, h15, h1015⟩ := hd
    have hp : fpsProgram d r1 r2 = [] := by
      simp [fpsProgram, h0, h10, h15, h1015]
    simp [mt9v113_set_FPS, hm, hne2, hp]

/-- Witness for C10: repeating divisor 15 under an unchanged mode is a
cache hit with no bus traffic; after a preview→snapshot mode change the
same divisor 15 is reprogrammed with a non-empty write sequence. -/
theorem c10_fps_cache_witness :
    mt9v113_set_FPS { pre_fps_div := 15, pre_op_mode := some OpMode.SENSOR_PREVIEW_MODE }
      OpMode.SENSOR_PREVIEW_MODE 15 (fun _ => 0) (fun _ => 0) =
      (0, { pre_fps_div := 15, pre_op_mode := some OpMode.SENSOR_PREVIEW_MODE }, []) ∧
    (mt9v113_set_FPS { pre_fps_div := 15, pre_op_mode := some OpMode.SENSOR_PREVIEW_MODE }
        OpMode.SENSOR_SNAPSHOT_MODE 15 (fun _ => 0) (fun _ => 0) =
      (0, { pre_fps_div := 15, pre_op_mode := some OpMode.SENSOR_SNAPSHOT_MODE },
        fpsProgram 15 (fun _ => 0) (fun _ => 0)) ∧
      fpsProgram 15 (fun _ => 0) (fun _ => 0) ≠ []) :=
  ⟨(c10_fps_cache OpMode.SENSOR_PREVIEW_MODE 15 (fun _ => 0) (fun _ => 0)).1,
   (c10_fps_cache OpMode.SENSOR_SNAPSHOT_MODE 15 (fun _ => 0) (fun _ => 0)).2.1
     { pre_fps_div := 15, pre_op_mode := some OpMode.SENSOR_PREVIEW_MODE }
     (by decide) (by norm_num)⟩

/-- Counterexample for C10 as stated: with divisor 7 cached under preview
mode, a snapshot-mode call with the same divisor 7 does invalidate the
cache (the early cache-hit return is not taken), yet reprograms nothing:
the call returns success with an empty bus trace, because 7 matches none of
the programming branches. -/
theorem c10_fps_cache_counterexample :
    mt9v113_set_FPS { pre_fps_div := 7, pre_op_mode := some OpMode.SENSOR_PREVIEW_MODE }
      OpMode.SENSOR_SNAPSHOT_MODE 7 (fun _ => 0) (fun _ => 0) =
      (0, { pre_fps_div := 7, pre_op_mode := some OpMode.SENSOR_SNAPSHOT_MODE }, []) := by
  simp [mt9v113_set_FPS, fpsProgram]

lemma toInt16_eq_self {x : Int} (h1 : -32768 ≤ x) (h2 : x ≤ 32767) :
    toInt16 x = x := by
  unfold toInt16
  omega

lemma move_focus_eq_spec (a : ActuatorCtrl) (msb lsb : Bool) (dir : FocusDir)
    (n : Int) (hdir : dir ≠ FocusDir.illegal)
    (h1 : -32768 ≤ (a.curr_step_pos : Int) +
      (if dir = FocusDir.MOVE_NEAR then (1 : Int) else -1) * n)
    (h2 : (a.curr_step_pos : Int) +
      (if dir = FocusDir.MOVE_NEAR then (1 : Int) else -1) * n ≤ 32767) :
    ov5693_msm_actuator_move_focus a msb lsb dir n =
      (if specDest a.curr_step_pos a.total_steps dir n = (a.curr_step_pos : Int)
       then (0, a, [])
       else
         if (ov5693_wrapper_i2c_write msb lsb (a.step_position_table
              (specDest a.curr_step_pos a.total_steps dir n).toNat)).1 < 0
         then ((ov5693_wrapper_i2c_write msb lsb (a.step_position_table
                (specDest a.curr_step_pos a.total_steps dir n).toNat)).1, a,
               (ov5693_wrapper_i2c_write msb lsb (a.step_position_table
                (specDest a.curr_step_pos a.total_steps dir n).toNat)).2)
         else (0, { a with curr_step_pos :=
                 (specDest a.curr_step_pos a.total_steps dir n).toNat },
               (ov5693_wrapper_i2c_write msb lsb (a.step_position_table
                (specDest a.curr_step_pos a.total_steps dir n).toNat)).2)) := by
  have hspec : specDest a.curr_step_pos a.total_steps dir n =
      (let s := (a.curr_step_pos : Int) +
        (if dir = FocusDir.MOVE_NEAR then (1 : Int) else -1) * n;
       if s < 0 then 0
       else if s > (a.total_steps : Int) then (a.total_steps : Int) else s) := by
    simp only [specDest]
    split_ifs <;> omega
  cases dir with
  | illegal => exact absurd rfl hdir
  | MOVE_NEAR =>
    rw [hspec]
    simp only [ov5693_msm_actuator_move_focus]
    norm_num at h1 h2 ⊢
    rw [toInt16_eq_self h1 h2]
  | MOVE_FAR =>
    rw [hspec]
    simp only [ov5693_msm_actuator_move_focus]
    norm_num at h1 h2 ⊢
    rw [toInt16_eq_self h1 h2]

/-- C7 (amended): for every controller state and direction, and every step
count whose signed destination `current + direction*steps` stays within the
`int16_t` range (so the C truncation is the identity), `move_focus` lands on
the destination clamped to `[0, total_steps]`: when the clamped destination
equals the current position (in particular Near at `total_steps` or Far at
step 0) it returns success having issued zero bus writes, and when both
drive-code writes succeed the stored position becomes exactly the clamped
destination; a request of 1000 steps Near from position 0 with
`total_steps` = `OV5693_TOTAL_STEPS_NEAR_TO_FAR` (52) lands exactly at
step 52. -/
theorem c7_move_to_clamp :
    (∀ (a : ActuatorCtrl) (msb lsb : Bool) (dir : FocusDir) (n : Int),
      dir ≠ FocusDir.illegal →
      -32768 ≤ (a.curr_step_pos : Int) +
        (if dir = FocusDir.MOVE_NEAR then (1 : Int) else -1) * n →
      (a.curr_step_pos : Int) +
        (if dir = FocusDir.MOVE_NEAR then (1 : Int) else -1) * n ≤ 32767 →
      ((specDest a.curr_step_pos a.total_steps dir n = (a.curr_step_pos : Int) →
          ov5693_msm_actuator_move_focus a msb lsb dir n = (0, a, [])) ∧
       (msb = true → lsb = true →
          ((ov5693_msm_actuator_move_focus a msb lsb dir n).2.1.curr_step_pos : Int) =
            specDest a.curr_step_pos a.total_steps dir n))) ∧
    (∀ tb : Nat → Nat,
      (ov5693_msm_actuator_move_focus
        { curr_step_pos := 0, total_steps := OV5693_TOTAL_STEPS_NEAR_TO_FAR,
          step_position_table := tb }
        true true FocusDir.MOVE_NEAR 1000).2.1.curr_step_pos = 52) := by
  have hpos : ∀ (curr total : Nat) (dir : FocusDir) (n : Int),
      0 ≤ specDest curr total dir n := by
    intro curr total dir n
    simp only [specDest]
    omega
  constructor
  · intro a msb lsb dir n hdir h1 h2
    have hb := move_focus_eq_spec a msb lsb dir n hdir h1 h2
    constructor
    · intro hd
      rw [hb, if_pos hd]
    · intro hm hl
      subst hm; subst hl
      rw [hb]
      by_cases hd : specDest a.curr_step_pos a.total_steps dir n =
          (a.curr_step_pos : Int)
      · rw [if_pos hd]
        exact hd.symm
      · rw [if_neg hd]
        simp [ov5693_wrapper_i2c_write]
        exact hpos _ _ _ _
  · intro tb
    have hb := move_focus_eq_spec
      { curr_step_pos := 0, total_steps := OV5693_TOTAL_STEPS_NEAR_TO_FAR,
        step_position_table := tb }
      true true FocusDir.MOVE_NEAR 1000 (by decide) (by norm_num) (by norm_num)
    rw [hb]
    norm_num [specDest, OV5693_TOTAL_STEPS_NEAR_TO_FAR, ov5693_wrapper_i2c_write]
    decide

/-- Witness for C7: Near by 7 when already at step 52 of 52 is a success
with zero bus writes; Far by 5 at step 0 likewise; and the 1000-step Near
request from step 0 with total 52 lands at step 52. -/
theorem c7_move_to_clamp_witness :
    ov5693_msm_actuator_move_focus
      { curr_step_pos := 52, total_steps := 52, step_position_table := fun _ => 0 }
      true true FocusDir.MOVE_NEAR 7 =
      (0, { curr_step_pos := 52, total_steps := 52,
            step_position_table := fun _ => 0 }, []) ∧
    ov5693_msm_actuator_move_focus
      { curr_step_pos := 0, total_steps := 52, step_position_table := fun _ => 0 }
      false true FocusDir.MOVE_FAR 5 =
      (0, { curr_step_pos := 0, total_steps := 52,
            step_position_table := fun _ => 0 }, []) ∧
    (ov5693_msm_actuator_move_focus
      { curr_step_pos := 0, total_steps := OV5693_TOTAL_STEPS_NEAR_TO_FAR,
        step_position_table := fun _ => 0 }
      true true FocusDir.MOVE_NEAR 1000).2.1.curr_step_pos = 52 :=
  ⟨(c7_move_to_clamp.1
      { curr_step_pos := 52, total_steps := 52, step_position_table := fun _ => 0 }
      true true FocusDir.MOVE_NEAR 7 (by decide) (by decide) (by decide)).1
      (by decide),
   (c7_move_to_clamp.1
      { curr_step_pos := 0, total_steps := 52, step_position_table := fun _ => 0 }
      false true FocusDir.MOVE_FAR 5 (by decide) (by decide) (by decide)).1
      (by decide),
   c7_move_to_clamp.2 (fun _ => 0)⟩

/-- Counterexample for C7 as stated: a Near request of 65536 steps from
position 0 with total 52 should, per the claim, clamp
`0 + 1*65536` to 52 — but `dest_step_pos` is an `int16_t`, so 65536 wraps
to 0, the move is treated as a no-op, no bus write is issued, and the
position stays 0 instead of 52. -/
theorem c7_move_to_clamp_counterexample :
    (ov5693_msm_actuator_move_focus
      { curr_step_pos := 0, total_steps := 52, step_position_table := fun _ => 0 }
      true true FocusDir.MOVE_NEAR 65536).2.1.curr_step_pos = 0 ∧
    (ov5693_msm_actuator_move_focus
      { curr_step_pos := 0, total_steps := 52, step_position_table := fun _ => 0 }
      true true FocusDir.MOVE_NEAR 65536).2.2 = [] ∧
    specDest 0 52 FocusDir.MOVE_NEAR 65536 = 52 ∧ (0 : Nat) ≠ 52 := by
  refine ⟨by decide, by decide, ?_, by decide⟩
  simp [specDest]

/-- C8: if either half of the two-register drive-code write fails (one of
the mock write outcomes is `false` while a write was actually attempted,
i.e. the bus trace is non-empty), `move_focus` surfaces the error (`-eioErr`)
and leaves the whole controller state — in particular `curr_step_pos` —
unchanged; conversely the stored position changes only when both halves
succeeded and the call returned success. -/
theorem c8_position_update_after_both_writes (a : ActuatorCtrl)
    (msb lsb : Bool) (dir : FocusDir) (n : Int) :
    ((ov5693_msm_actuator_move_focus a msb lsb dir n).2.2 ≠ [] →
      (msb = false ∨ lsb = false) →
      (ov5693_msm_actuator_move_focus a msb lsb dir n).1 = -eioErr ∧
      (ov5693_msm_actuator_move_focus a msb lsb dir n).2.1 = a) ∧
    ((ov5693_msm_actuator_move_focus a msb lsb dir n).2.1.curr_step_pos ≠
        a.curr_step_pos →
      msb = true ∧ lsb = true ∧
      (ov5693_msm_actuator_move_focus a msb lsb dir n).1 = 0) := by
  have wfl : ∀ (lsb : Bool) (v : Nat), ov5693_wrapper_i2c_write false lsb v =
      (-eioErr, [BusOp.write REG_VCM_CODE_MSB ((v &&& 0x0300) >>> 8) Width.BYTE_LEN]) := by
    intro lsb v; simp [ov5693_wrapper_i2c_write]
  have wfr : ∀ v : Nat, ov5693_wrapper_i2c_write true false v =
      (-eioErr, [BusOp.write REG_VCM_CODE_MSB ((v &&& 0x0300) >>> 8) Width.BYTE_LEN,
              BusOp.write REG_VCM_CODE_LSB (v &&& 0x00FF) Width.BYTE_LEN]) := by
    intro v; simp [ov5693_wrapper_i2c_write]
  have wok : ∀ v : Nat, ov5693_wrapper_i2c_write true true v =
      ((0 : Int), [BusOp.write REG_VCM_CODE_MSB ((v &&& 0x0300) >>> 8) Width.BYTE_LEN,
           BusOp.write REG_VCM_CODE_LSB (v &&& 0x00FF) Width.BYTE_LEN]) := by
    intro v; simp [ov5693_wrapper_i2c_write]
  cases dir <;> cases msb <;> cases lsb <;>
    simp [ov5693_msm_actuator_move_focus, wfl, wfr, wok, eioErr] <;>
    split_ifs <;> simp_all

/-- Witness for C8: with the high-byte write failing, a Near-by-5 move from
step 0 returns `-eioErr` and keeps the position at 0 (the state is returned
untouched); with both writes succeeding the same move lands at step 5 with
rc 0. -/
theorem c8_position_update_after_both_writes_witness :
    ((ov5693_msm_actuator_move_focus
        { curr_step_pos := 0, total_steps := 52, step_position_table := fun _ => 7 }
        false true FocusDir.MOVE_NEAR 5).1 = -eioErr ∧
      (ov5693_msm_actuator_move_focus
        { curr_step_pos := 0, total_steps := 52, step_position_table := fun _ => 7 }
        false true FocusDir.MOVE_NEAR 5).2.1 =
        { curr_step_pos := 0, total_steps := 52,
          step_position_table := fun _ => 7 }) ∧
    (true = true ∧ true = true ∧
      (ov5693_msm_actuator_move_focus
        { curr_step_pos := 0, total_steps := 52, step_position_table := fun _ => 7 }
        true true FocusDir.MOVE_NEAR 5).1 = 0) :=
  ⟨(c8_position_update_after_both_writes
      { curr_step_pos := 0, total_steps := 52, step_position_table := fun _ => 7 }
      false true FocusDir.MOVE_NEAR 5).1 (by decide) (Or.inl rfl),
   (c8_position_update_after_both_writes
      { curr_step_pos := 0, total_steps := 52, step_position_table := fun _ => 7 }
      true true FocusDir.MOVE_NEAR 5).2 (by decide)⟩

lemma and_ff_eq_mod (a : Nat) : a &&& 0xFF = a % 256 := by
  have h := Nat.and_pow_two_sub_one_eq_mod a 8
  norm_num at h
  exact h

lemma and_ff00_shr_eq (a : Nat) : (a &&& 0xFF00) >>> 8 = a / 256 % 256 := by
  have h : a / 256 % 256 = (a >>> 8) % 2 ^ 8 := by
    rw [Nat.shiftRight_eq_div_pow]; norm_num
  rw [h]
  apply Nat.eq_of_testBit_eq
  intro i
  rw [Nat.testBit_shiftRight, Nat.testBit_and, Nat.testBit_mod_two_pow,
    Nat.testBit_shiftRight]
  rcases Nat.lt_or_ge i 8 with hi | hi
  · have hb : Nat.testBit 0xFF00 (8 + i) = true := by
      interval_cases i <;> decide
    simp [hb, hi]
  · have hb : Nat.testBit 0xFF00 (8 + i) = false := by
      apply Nat.testBit_lt_two_pow
      calc (0xFF00 : Nat) < 2 ^ 16 := by norm_num
        _ ≤ 2 ^ (8 + i) := Nat.pow_le_pow_right (by norm_num) (by omega)
    simp [hb, Nat.not_lt.2 hi]

/-- C9 (amended): a word-width register write is one framed transaction
whose bytes are the big-endian 16-bit address followed by the big-endian
16-bit value; a byte-width write frames only the low 8 bits of the address
followed by the 8-bit value (the high address byte is dropped by the
`unsigned char` assignment); and every register read is two-phase — a
transmit of the big-endian address immediately followed by a separate
2-byte data-phase message, never a single coalesced exchange. -/
theorem c9_bus_framing :
    (∀ a v : Nat, mt9v113_i2c_write_msgs a v Width.WORD_LEN =
      [I2cMsg.tx (be16 a ++ be16 v)]) ∧
    (∀ a v : Nat, mt9v113_i2c_write_msgs a v Width.BYTE_LEN =
      [I2cMsg.tx [a % 256, v % 256]]) ∧
    (∀ r : Nat, mt9v113_i2c_read_w_msgs r =
      [I2cMsg.tx (be16 r), I2cMsg.rx 2]) := by
  refine ⟨?_, ?_, ?_⟩
  · intro a v
    simp [mt9v113_i2c_write_msgs, mt9v113_i2c_write_frame, be16,
      and_ff_eq_mod, and_ff00_shr_eq]
  · intro a v
    simp [mt9v113_i2c_write_msgs, mt9v113_i2c_write_frame]
  · intro r
    simp [mt9v113_i2c_read_w_msgs, mt9v113_i2c_rxdata_msgs, be16,
      and_ff_eq_mod, and_ff00_shr_eq]

/-- Counterexample for C9 as stated: the byte-width write of value 0x24 to
register 0x2717 frames only `[0x17, 0x24]` — the low address byte and the
value — not a 16-bit big-endian address followed by the value, which would
be `[0x27, 0x17, 0x24]`. -/
theorem c9_bus_framing_counterexample :
    mt9v113_i2c_write_frame 0x2717 0x24 Width.BYTE_LEN = [0x17, 0x24] ∧
    mt9v113_i2c_write_frame 0x2717 0x24 Width.BYTE_LEN ≠ be16 0x2717 ++ [0x24] := by
  constructor <;> decide

end Totemc2
